import Mathlib

/-
Shallow embedding of the BronOS/mvc request-dispatch layer.

The repository is a small Go MVC framework: an Error Model (`HTTPError`
in src/error.go), middleware and controller contracts returning an
optional Error Model (src/middleware.go, the controller file), a
dispatcher (`HTTPServer.AddMiddleware` / `HTTPServer.AddRoute` in
src/server.go) that wraps every middleware and every route handler with
the uniform error translation (the standard library helper `http.Error`),
and request-binding / response-writing helpers (`ScanQuery`, `ScanVars`,
`ScanForm`, `ScanJSONBody`, `WriteJSONResponse`).

External collaborators (the gorilla/mux pattern matcher, the schema
decoder, the JSON codec and the validator, and the net/http response
writer) are modelled abstractly, following the description the
specification gives of each capability.  A Go `error` interface value is
modelled as `Option String`: `none` is the nil error, `some msg` is a
non-nil error whose `Error()` method returns `msg`.
-/

/-- The Error Model of src/error.go: an HTTP status code together with a
wrapped cause.  `Err = none` models a nil `error` interface value. -/
structure HTTPError where
  ResponseCode : Int
  Err : Option String
deriving DecidableEq, Repr

/-- NewHTTPError of src/error.go: returns a new HTTPError filled with the
response code and the original error.  It performs no validation of
either argument. -/
def NewHTTPError (responseCode : Int) (err : Option String) : HTTPError :=
  { ResponseCode := responseCode, Err := err }

/-- Message of the wrapped cause, modelling the Go call `e.Err.Error()`.
On a nil cause Go would panic; the theorems below only use this under the
populated-cause invariant, where the default is never reached. -/
def HTTPError.errMessage (e : HTTPError) : String :=
  e.Err.getD ""

/-- Whether an integer lies in the valid HTTP status range 100..599. -/
def validHTTPStatus (c : Int) : Bool :=
  decide (100 ≤ c ∧ c ≤ 599)

/-- An incoming HTTP request, reduced to the parts the dispatcher
inspects: the method and the URL path. -/
structure Request where
  method : String
  path : String
deriving DecidableEq, Repr

/-- The response sink (the net/http `ResponseWriter`), modelled as the
observable response state: headers, the written status line (none while
no status has been written), and the accumulated body. -/
structure Response where
  headers : List (String × String)
  status : Option Int
  body : String
deriving DecidableEq, Repr

/-- Header().Set of the response writer: replaces any existing value of
the key. -/
def Response.headerSet (w : Response) (k v : String) : Response :=
  { w with headers := (k, v) :: w.headers.filter (fun kv => kv.1 ≠ k) }

/-- Header lookup on the response state. -/
def Response.headerGet (w : Response) (k : String) : Option String :=
  w.headers.lookup k

/-- WriteHeader of the response writer: writes the status line once; a
second call is superfluous and ignored, as in net/http. -/
def Response.writeHeader (w : Response) (code : Int) : Response :=
  match w.status with
  | none => { w with status := some code }
  | some _ => w

/-- Write of the response writer: appends to the body; if no status has
been written yet, an implicit 200 is written first, as in net/http. -/
def Response.write (w : Response) (s : String) : Response :=
  match w.status with
  | none => { w with status := some 200, body := w.body ++ s }
  | some _ => { w with body := w.body ++ s }

/-- Modelled from the spec: the uniform error-to-response translation,
the external standard-library helper `http.Error` called by both
dispatch sites in src/server.go.  Per the translation rule of the spec
it sets a plain-text content type, writes the given status code, and
writes the message as the body. -/
def httpError (w : Response) (msg : String) (code : Int) : Response :=
  ((w.headerSet "Content-Type" "text/plain; charset=utf-8").writeHeader code).write msg

/-- A composed request handler (http.Handler): consumes the sink and the
request and yields the final sink state. -/
abbrev Handler := Response → Request → Response

/-- The middleware contract of src/middleware.go: Handle receives the
sink and the request and returns an optional Error Model, possibly
having written to the sink. -/
abbrev Middleware := Response → Request → Response × Option HTTPError

/-- The controller contract: Action has the same signature as a
middleware Handle. -/
abbrev Controller := Response → Request → Response × Option HTTPError

/-- The wrapper built by HTTPServer.AddMiddleware in src/server.go: call
Handle; on nil error pass control to the next handler, otherwise call
http.Error with the error message and the response code. -/
def middlewareHandler (m : Middleware) (next : Handler) : Handler :=
  fun w r =>
    match (m w r).2 with
    | none => next (m w r).1 r
    | some herr => httpError (m w r).1 herr.errMessage herr.ResponseCode

/-- The route handler registered by HTTPServer.AddRoute in src/server.go:
call Action; on a non-nil error call http.Error with the error message
and the response code, otherwise add nothing. -/
def routeHandler (c : Controller) : Handler :=
  fun w r =>
    match (c w r).2 with
    | none => (c w r).1
    | some herr => httpError (c w r).1 herr.errMessage herr.ResponseCode

/-- The chain built by gorilla/mux from the registered middleware list:
the router wraps the matched handler from the last registered middleware
inward, so the first registered middleware is outermost and runs first. -/
def composeChain (ms : List Middleware) (h : Handler) : Handler :=
  ms.foldr middlewareHandler h

/-- Sequential reference execution of a middleware list, in list order:
threads the sink through the chain and stops at the first middleware
returning a non-nil Error Model.  Used to state properties of the
composed chain. -/
def runChain : List Middleware → Response → Request → Response × Option HTTPError
  | [], w, _ => (w, none)
  | m :: rest, w, r =>
    match (m w r).2 with
    | none => runChain rest (m w r).1 r
    | some e => ((m w r).1, some e)

/-- Written after the words of the spec, for comparison with the
composed chain: middleware execute strictly in registration order, the
controller executes strictly after all middleware returned no error, and
the first Error Model is translated uniformly. -/
def orderedDispatchSpec (ms : List Middleware) (c : Controller) (w : Response) (r : Request) : Response :=
  match runChain ms w r with
  | (w1, none) =>
    match (c w1 r).2 with
    | none => (c w1 r).1
    | some e => httpError (c w1 r).1 e.errMessage e.ResponseCode
  | (w1, some e) => httpError w1 e.errMessage e.ResponseCode

theorem composeChain_nil (h : Handler) : composeChain [] h = h := rfl

theorem composeChain_cons (m : Middleware) (ms : List Middleware) (h : Handler) :
    composeChain (m :: ms) h = middlewareHandler m (composeChain ms h) := rfl

/-- The nested closure chain agrees with the sequential reference run:
the composed handler runs the middleware in list order and hands the
resulting sink to the inner handler exactly when every middleware
returned no error. -/
theorem composeChain_eq_runChain (ms : List Middleware) (h : Handler) (w : Response) (r : Request) :
    composeChain ms h w r =
      match runChain ms w r with
      | (w1, none) => h w1 r
      | (w1, some e) => httpError w1 e.errMessage e.ResponseCode := by
  induction ms generalizing w with
  | nil => rfl
  | cons m rest ih =>
    rw [composeChain_cons]
    unfold middlewareHandler runChain
    cases hm : (m w r).2 with
    | none => simpa using ih (m w r).1
    | some e => simp

theorem runChain_cons (m : Middleware) (ms : List Middleware) (w : Response) (r : Request) :
    runChain (m :: ms) w r =
      match (m w r).2 with
      | none => runChain ms (m w r).1 r
      | some e => ((m w r).1, some e) := rfl

/-- Running an appended chain first runs the front part and continues
with the back part only when the front part raised no error. -/
theorem runChain_append (xs ys : List Middleware) (w : Response) (r : Request) :
    runChain (xs ++ ys) w r =
      match runChain xs w r with
      | (w1, none) => runChain ys w1 r
      | (w1, some e) => (w1, some e) := by
  induction xs generalizing w with
  | nil => rfl
  | cons m rest ih =>
    rw [List.cons_append, runChain_cons, runChain_cons]
    cases hm : (m w r).2 with
    | none => simpa using ih (m w r).1
    | some e => simp

/-- A route entry of the routing table: the pattern and allowed methods
given to HTTPServer.AddRoute together with the bound controller. -/
structure RouteEntry where
  pattern : String
  methods : List String
  controller : Controller

/-- Method matching of the external router (the mux method matcher):
the request method must be one of the registered methods. -/
def matchInArray (arr : List String) (s : String) : Bool :=
  arr.contains s

/-- Outcome of matching a request against the routing table. -/
inductive MatchOutcome where
  | matched (c : Controller)
  | methodMismatch
  | notFound

/-- Modelled from the spec: the external routing capability.  Routes are
tried in registration order; the first entry whose pattern matches the
path and whose method set holds the request method wins.  A pattern
match with a method mismatch is remembered and reported as a method
mismatch when no later entry fully matches. -/
def routerFind (pmatch : String → String → Bool) (req : Request) :
    List RouteEntry → Bool → MatchOutcome
  | [], mm => if mm then .methodMismatch else .notFound
  | e :: rest, mm =>
    if pmatch e.pattern req.path then
      if matchInArray e.methods req.method then .matched e.controller
      else routerFind pmatch req rest true
    else routerFind pmatch req rest mm

/-- Modelled from the spec: dispatch of one request by the router.  A
fully matched route runs the registered middleware chain around its
route handler; a method mismatch gets the default 405 response of the
routing layer; an unmatched path gets the default not-found response. -/
def serveHTTP (pmatch : String → String → Bool) (routes : List RouteEntry)
    (ms : List Middleware) (w : Response) (req : Request) : Response :=
  match routerFind pmatch req routes false with
  | .matched c => composeChain ms (routeHandler c) w req
  | .methodMismatch => w.writeHeader 405
  | .notFound => httpError w "404 page not found" 404

/-- Modelled from the spec: the external structured-decoding capability.
Given a flat string-keyed multi-value mapping it either populates the
caller schema (ok) or fails with a decoding error message. -/
abbrev SchemaDecoder := List (String × List String) → Except String Unit

/-- ScanQuery of the abstract controller: hand the query values of the
request URL to the schema decoder; a decoder failure becomes an Error
Model with status 400 (http.StatusBadRequest). -/
def ScanQuery (decoder : SchemaDecoder) (query : List (String × List String)) :
    Option HTTPError :=
  match decoder query with
  | .error err => some (NewHTTPError 400 (some err))
  | .ok _ => none

/-- ScanVars of the abstract controller: turn the mux route variables
(single-valued) into a multi-value mapping, key by key, and hand it to
the schema decoder; a decoder failure becomes an Error Model with
status 400. -/
def ScanVars (decoder : SchemaDecoder) (vars : List (String × String)) :
    Option HTTPError :=
  let mVars := vars.map (fun kv => (kv.1, [kv.2]))
  match decoder mVars with
  | .error err => some (NewHTTPError 400 (some err))
  | .ok _ => none

/-- ScanForm of the abstract controller: parse the form body (external;
its outcome is either the populated PostForm mapping or a parse error)
and hand the mapping to the schema decoder; each failure becomes an
Error Model with status 400. -/
def ScanForm (parseFormResult : Except String (List (String × List String)))
    (decoder : SchemaDecoder) : Option HTTPError :=
  match parseFormResult with
  | .error err => some (NewHTTPError 400 (some err))
  | .ok postForm =>
    match decoder postForm with
    | .error err => some (NewHTTPError 400 (some err))
    | .ok _ => none

/-- ScanJSONBody of the abstract JSON controller: decode the body with
the external JSON codec, then run the external validator on the decoded
schema.  A decode failure and a validator failure become Error Models
with status 400; a validator verdict of false becomes an Error Model
with status 400 and the fixed message written in the source. -/
def ScanJSONBody (jsonDecodeResult : Except String Unit)
    (validResult : Except String Bool) : Option HTTPError :=
  match jsonDecodeResult with
  | .error err => some (NewHTTPError 400 (some err))
  | .ok _ =>
    match validResult with
    | .error err => some (NewHTTPError 400 (some err))
    | .ok b =>
      if !b then some (NewHTTPError 400 (some "Schema validation error"))
      else none

/-- Helper: after an error-free front part, a middleware returning an
Error Model determines the whole composed chain result, independently of
the rest of the chain and of the inner handler. -/
theorem composeChain_middleware_error
    (ms1 ms2 : List Middleware) (m : Middleware) (h : Handler)
    (w w1 w2 : Response) (r : Request) (e : HTTPError)
    (hrun : runChain ms1 w r = (w1, none))
    (hm : m w1 r = (w2, some e)) :
    composeChain (ms1 ++ m :: ms2) h w r = httpError w2 e.errMessage e.ResponseCode := by
  rw [composeChain_eq_runChain, runChain_append, hrun]
  simp [runChain_cons, hm]

/-- Helper: when every middleware returns no error, the composed chain
hands the resulting sink to the inner handler. -/
theorem composeChain_all_none
    (ms : List Middleware) (h : Handler) (w w1 : Response) (r : Request)
    (hrun : runChain ms w r = (w1, none)) :
    composeChain ms h w r = h w1 r := by
  rw [composeChain_eq_runChain, hrun]

/-- Helper: a controller returning an Error Model makes the route
handler emit the uniform translation. -/
theorem routeHandler_error (c : Controller) (w w2 : Response) (r : Request) (e : HTTPError)
    (hc : c w r = (w2, some e)) :
    routeHandler c w r = httpError w2 e.errMessage e.ResponseCode := by
  simp [routeHandler, hc]

/-- Helper: a controller returning no error makes the route handler
return the sink exactly as the controller left it. -/
theorem routeHandler_none (c : Controller) (w w2 : Response) (r : Request)
    (hc : c w r = (w2, none)) :
    routeHandler c w r = w2 := by
  simp [routeHandler, hc]

/-- Helper: what the uniform translation writes on a sink whose status
line is still unwritten. -/
theorem httpError_writes (w : Response) (msg : String) (code : Int)
    (hw : w.status = none) :
    (httpError w msg code).status = some code ∧
    (httpError w msg code).body = w.body ++ msg := by
  simp [httpError, Response.headerSet, Response.writeHeader, Response.write, hw]

/-- Helper: the routing outcome does not depend on the controller of an
entry whose method set does not hold the request method. -/
theorem routerFind_controller_irrelevant
    (pmatch : String → String → Bool) (req : Request)
    (pat : String) (methods : List String) (c c' : Controller)
    (rs1 rs2 : List RouteEntry)
    (hm : req.method ∉ methods) :
    ∀ mm, routerFind pmatch req (rs1 ++ ⟨pat, methods, c⟩ :: rs2) mm =
      routerFind pmatch req (rs1 ++ ⟨pat, methods, c'⟩ :: rs2) mm := by
  have hjm : matchInArray methods req.method = false := by
    simp [matchInArray, List.contains, hm]
  induction rs1 with
  | nil =>
    intro mm
    rw [List.nil_append, List.nil_append]
    unfold routerFind
    simp [hjm]
  | cons a rest ih =>
    intro mm
    rw [List.cons_append, List.cons_append]
    unfold routerFind
    by_cases hp : pmatch a.pattern req.path = true
    · simp only [hp, if_true]
      by_cases hma : matchInArray a.methods req.method = true
      · simp [hma]
      · simp only [Bool.not_eq_true] at hma
        simp [hma, ih]
    · simp only [Bool.not_eq_true] at hp
      simp [hp, ih]

/-- WriteJSONResponse of the abstract JSON controller: encode the schema
with the external JSON codec; on failure return an Error Model with
status 500 (http.StatusInternalServerError) having written nothing.  On
success set Content-Type to application/json, write the given status
code or 200 when none was given, write the encoded bytes, and return no
error (the outcome of the final sink write is discarded by the source). -/
def WriteJSONResponse (w : Response) (marshalResult : Except String String)
    (responseCode : Option Int) : Response × Option HTTPError :=
  match marshalResult with
  | .error err => (w, some (NewHTTPError 500 (some err)))
  | .ok b =>
    let w := w.headerSet "Content-Type" "application/json"
    let code := match responseCode with
      | none => 200
      | some c => c
    ((w.writeHeader code).write b, none)

/-- A sample GET request used by the concrete witnesses. -/
def sampleReq : Request := { method := "GET", path := "/items/42" }

/-- A sample POST request used by the concrete witnesses. -/
def sampleReqPost : Request := { method := "POST", path := "/items/42" }

/-- A fresh response sink: nothing written yet. -/
def emptyResponse : Response := { headers := [], status := none, body := "" }

/-- A middleware that lets every request pass. -/
def mwPass : Middleware := fun w _ => (w, none)

/-- A middleware that rejects every request with a 403 Error Model. -/
def mwForbid : Middleware := fun w _ => (w, some (NewHTTPError 403 (some "forbidden")))

/-- A controller that writes a body and reports success. -/
def ctrlHello : Controller := fun w _ => (w.write "hello", none)

/-- A controller that fails with a 500 Error Model without writing. -/
def ctrlBoom : Controller := fun w _ => (w, some (NewHTTPError 500 (some "boom")))

/-- C1: if, after an error-free front part of the chain, middleware m
returns an Error Model, then the composed chain built by AddMiddleware
and AddRoute yields exactly the uniform translation of that Error Model
(status = ResponseCode, body = the cause message), and the result is
independent of the remaining middleware and of the controller — they
are never invoked. -/
theorem middleware_error_short_circuits
    (ms1 ms2 : List Middleware) (m : Middleware) (c : Controller)
    (w w1 w2 : Response) (r : Request) (e : HTTPError) (msg : String)
    (hrun : runChain ms1 w r = (w1, none))
    (hm : m w1 r = (w2, some e))
    (hmsg : e.Err = some msg) :
    composeChain (ms1 ++ m :: ms2) (routeHandler c) w r = httpError w2 msg e.ResponseCode ∧
    ∀ (ms2' : List Middleware) (c' : Controller),
      composeChain (ms1 ++ m :: ms2) (routeHandler c) w r =
        composeChain (ms1 ++ m :: ms2') (routeHandler c') w r := by
  have key : ∀ (ms2' : List Middleware) (c' : Controller),
      composeChain (ms1 ++ m :: ms2') (routeHandler c') w r =
        httpError w2 msg e.ResponseCode := by
    intro ms2' c'
    have h := composeChain_middleware_error ms1 ms2' m (routeHandler c') w w1 w2 r e hrun hm
    simpa [HTTPError.errMessage, hmsg] using h
  exact ⟨key ms2 c, fun ms2' c' => (key ms2 c).trans (key ms2' c').symm⟩

/-- Concrete instance of the C1 theorem: a passing middleware, then a
403-rejecting middleware, then another middleware and a controller that
are never reached. -/
theorem middleware_error_short_circuits_witness :
    runChain [mwPass] emptyResponse sampleReq = (emptyResponse, none) ∧
    mwForbid emptyResponse sampleReq = (emptyResponse, some (NewHTTPError 403 (some "forbidden"))) ∧
    (NewHTTPError 403 (some "forbidden")).Err = some "forbidden" ∧
    composeChain ([mwPass] ++ mwForbid :: [mwPass]) (routeHandler ctrlHello) emptyResponse sampleReq =
      httpError emptyResponse "forbidden" 403 :=
  ⟨rfl, rfl, rfl,
    (middleware_error_short_circuits [mwPass] [mwPass] mwForbid ctrlHello
      emptyResponse emptyResponse emptyResponse sampleReq
      (NewHTTPError 403 (some "forbidden")) "forbidden" rfl rfl rfl).1⟩

/-- C2: one uniform translation is applied identically at both dispatch
sites: a middleware failure and a controller failure both produce
httpError applied to the sink as left by the failing stage, with status
ResponseCode and the cause message; on an untouched status line httpError
writes exactly that status and appends exactly that message as body. -/
theorem uniform_error_translation :
    (∀ (ms1 ms2 : List Middleware) (m : Middleware) (c : Controller)
       (w w1 w2 : Response) (r : Request) (e : HTTPError) (msg : String),
       runChain ms1 w r = (w1, none) → m w1 r = (w2, some e) → e.Err = some msg →
       composeChain (ms1 ++ m :: ms2) (routeHandler c) w r = httpError w2 msg e.ResponseCode) ∧
    (∀ (ms : List Middleware) (c : Controller) (w w1 w2 : Response) (r : Request)
       (e : HTTPError) (msg : String),
       runChain ms w r = (w1, none) → c w1 r = (w2, some e) → e.Err = some msg →
       composeChain ms (routeHandler c) w r = httpError w2 msg e.ResponseCode) ∧
    (∀ (w : Response) (msg : String) (code : Int), w.status = none →
       (httpError w msg code).status = some code ∧
       (httpError w msg code).body = w.body ++ msg) := by
  refine ⟨?_, ?_, ?_⟩
  · intro ms1 ms2 m c w w1 w2 r e msg hrun hm hmsg
    have h := composeChain_middleware_error ms1 ms2 m (routeHandler c) w w1 w2 r e hrun hm
    simpa [HTTPError.errMessage, hmsg] using h
  · intro ms c w w1 w2 r e msg hrun hc hmsg
    rw [composeChain_all_none ms (routeHandler c) w w1 r hrun,
      routeHandler_error c w1 w2 r e hc]
    simp [HTTPError.errMessage, hmsg]
  · intro w msg code hw
    exact httpError_writes w msg code hw

/-- Concrete instance of the C2 theorem: a middleware failure and a
controller failure produce the same shape of translated response, and
httpError on a fresh sink writes the status and the message. -/
theorem uniform_error_translation_witness :
    composeChain ([] ++ mwForbid :: []) (routeHandler ctrlHello) emptyResponse sampleReq =
      httpError emptyResponse "forbidden" 403 ∧
    composeChain [mwPass] (routeHandler ctrlBoom) emptyResponse sampleReq =
      httpError emptyResponse "boom" 500 ∧
    ((httpError emptyResponse "forbidden" 403).status = some 403 ∧
     (httpError emptyResponse "forbidden" 403).body = emptyResponse.body ++ "forbidden") :=
  ⟨uniform_error_translation.1 [] [] mwForbid ctrlHello
      emptyResponse emptyResponse emptyResponse sampleReq
      (NewHTTPError 403 (some "forbidden")) "forbidden" rfl rfl rfl,
    uniform_error_translation.2.1 [mwPass] ctrlBoom
      emptyResponse emptyResponse emptyResponse sampleReq
      (NewHTTPError 500 (some "boom")) "boom" rfl rfl rfl,
    uniform_error_translation.2.2 emptyResponse "forbidden" 403 rfl⟩

/-- C3: when every middleware returns no error and the controller
returns nil, the composed chain returns the sink exactly as the
controller left it — the dispatcher writes nothing further. -/
theorem controller_success_dispatcher_adds_nothing
    (ms : List Middleware) (c : Controller) (w w1 w2 : Response) (r : Request)
    (hrun : runChain ms w r = (w1, none))
    (hc : c w1 r = (w2, none)) :
    composeChain ms (routeHandler c) w r = w2 := by
  rw [composeChain_all_none ms (routeHandler c) w w1 r hrun]
  exact routeHandler_none c w1 w2 r hc

/-- Concrete instance of the C3 theorem: one passing middleware and a
controller that writes hello; the response is exactly that write. -/
theorem controller_success_dispatcher_adds_nothing_witness :
    runChain [mwPass] emptyResponse sampleReq = (emptyResponse, none) ∧
    ctrlHello emptyResponse sampleReq = (Response.write emptyResponse "hello", none) ∧
    composeChain [mwPass] (routeHandler ctrlHello) emptyResponse sampleReq =
      Response.write emptyResponse "hello" :=
  ⟨rfl, rfl,
    controller_success_dispatcher_adds_nothing [mwPass] ctrlHello
      emptyResponse emptyResponse (Response.write emptyResponse "hello") sampleReq rfl rfl⟩

/-- C4: the nested closure chain built by AddMiddleware and AddRoute is
extensionally equal to the sequential reference dispatcher that runs the
middleware strictly in registration order and invokes the controller
strictly after every middleware returned no error. -/
theorem dispatch_in_registration_order
    (ms : List Middleware) (c : Controller) (w : Response) (r : Request) :
    composeChain ms (routeHandler c) w r = orderedDispatchSpec ms c w r := by
  rw [composeChain_eq_runChain]
  unfold orderedDispatchSpec
  cases hrc : runChain ms w r with
  | mk w1 oe =>
    cases oe with
    | none => rfl
    | some e => rfl

/-- C5: a request whose method is not in the (non-empty) method set of a
registered route never invokes that route controller: the dispatch
outcome is unchanged under replacing the controller by any other. -/
theorem method_mismatch_never_invokes_controller
    (pmatch : String → String → Bool) (rs1 rs2 : List RouteEntry)
    (pat : String) (methods : List String) (c c' : Controller)
    (mws : List Middleware) (w : Response) (req : Request)
    (_hne : methods ≠ [])
    (hm : req.method ∉ methods) :
    serveHTTP pmatch (rs1 ++ ⟨pat, methods, c⟩ :: rs2) mws w req =
      serveHTTP pmatch (rs1 ++ ⟨pat, methods, c'⟩ :: rs2) mws w req := by
  unfold serveHTTP
  rw [routerFind_controller_irrelevant pmatch req pat methods c c' rs1 rs2 hm false]

/-- Concrete instance of the C5 theorem: a GET-only route hit by a POST
request behaves identically with two different controllers. -/
theorem method_mismatch_never_invokes_controller_witness :
    (["GET"] : List String) ≠ [] ∧
    "POST" ∉ (["GET"] : List String) ∧
    serveHTTP (fun a b => a == b) ([] ++ ⟨"/items/42", ["GET"], ctrlHello⟩ :: []) []
        emptyResponse sampleReqPost =
      serveHTTP (fun a b => a == b) ([] ++ ⟨"/items/42", ["GET"], ctrlBoom⟩ :: []) []
        emptyResponse sampleReqPost :=
  ⟨by decide, by decide,
    method_mismatch_never_invokes_controller (fun a b => a == b) [] []
      "/items/42" ["GET"] ctrlHello ctrlBoom [] emptyResponse sampleReqPost
      (by decide) (by decide)⟩

/-- C6: every failure inside the binding helpers is surfaced as an Error
Model with status 400 and the collaborator message as cause — ScanQuery
and ScanVars return exactly the 400 Error Model wrapping the decoder
error, every Error Model returned by ScanForm or ScanJSONBody carries
status 400 and a populated cause, and ScanJSONBody on a malformed JSON
body returns the 400 Error Model wrapping the codec error.  All helpers
are total functions: no failure is thrown. -/
theorem scan_helpers_return_400 :
    (∀ (dec : SchemaDecoder) (q : List (String × List String)) (msg : String),
       dec q = Except.error msg → ScanQuery dec q = some (NewHTTPError 400 (some msg))) ∧
    (∀ (dec : SchemaDecoder) (vars : List (String × String)) (msg : String),
       dec (vars.map fun kv => (kv.1, [kv.2])) = Except.error msg →
       ScanVars dec vars = some (NewHTTPError 400 (some msg))) ∧
    (∀ (pf : Except String (List (String × List String))) (dec : SchemaDecoder) (e : HTTPError),
       ScanForm pf dec = some e → e.ResponseCode = 400 ∧ e.Err.isSome = true) ∧
    (∀ (jd : Except String Unit) (vr : Except String Bool) (e : HTTPError),
       ScanJSONBody jd vr = some e → e.ResponseCode = 400 ∧ e.Err.isSome = true) ∧
    (∀ (msg : String) (vr : Except String Bool),
       ScanJSONBody (Except.error msg) vr = some (NewHTTPError 400 (some msg))) := by
  refine ⟨?_, ?_, ?_, ?_, ?_⟩
  · intro dec q msg h
    simp [ScanQuery, h]
  · intro dec vars msg h
    simp [ScanVars, h]
  · intro pf dec e h
    cases pf with
    | error msg =>
      simp [ScanForm, NewHTTPError] at h
      simp [← h, NewHTTPError]
    | ok postForm =>
      cases hd : dec postForm with
      | error msg =>
        simp [ScanForm, hd, NewHTTPError] at h
        simp [← h, NewHTTPError]
      | ok u => simp [ScanForm, hd] at h
  · intro jd vr e h
    cases jd with
    | error msg =>
      simp [ScanJSONBody, NewHTTPError] at h
      simp [← h, NewHTTPError]
    | ok u =>
      cases vr with
      | error msg =>
        simp [ScanJSONBody, NewHTTPError] at h
        simp [← h, NewHTTPError]
      | ok b =>
        cases b with
        | false =>
          simp [ScanJSONBody, NewHTTPError] at h
          simp [← h, NewHTTPError]
        | true => simp [ScanJSONBody] at h
  · intro msg vr
    simp [ScanJSONBody]

/-- Concrete instance of the C6 theorem: each helper evaluated at a
failing collaborator outcome. -/
theorem scan_helpers_return_400_witness :
    ScanQuery (fun _ => Except.error "bad query") [] =
      some (NewHTTPError 400 (some "bad query")) ∧
    ScanVars (fun _ => Except.error "bad var") [("id", "42")] =
      some (NewHTTPError 400 (some "bad var")) ∧
    ((NewHTTPError 400 (some "bad form")).ResponseCode = 400 ∧
     (NewHTTPError 400 (some "bad form")).Err.isSome = true) ∧
    ((NewHTTPError 400 (some "unexpected EOF")).ResponseCode = 400 ∧
     (NewHTTPError 400 (some "unexpected EOF")).Err.isSome = true) ∧
    ScanJSONBody (Except.error "unexpected EOF") (Except.ok true) =
      some (NewHTTPError 400 (some "unexpected EOF")) :=
  ⟨scan_helpers_return_400.1 (fun _ => Except.error "bad query") [] "bad query" rfl,
    scan_helpers_return_400.2.1 (fun _ => Except.error "bad var") [("id", "42")] "bad var" rfl,
    scan_helpers_return_400.2.2.1 (Except.error "bad form") (fun _ => Except.ok ())
      (NewHTTPError 400 (some "bad form")) rfl,
    scan_helpers_return_400.2.2.2.1 (Except.error "unexpected EOF") (Except.ok true)
      (NewHTTPError 400 (some "unexpected EOF")) rfl,
    scan_helpers_return_400.2.2.2.2 "unexpected EOF" (Except.ok true)⟩

/-- C7: WriteJSONResponse, on a sink with no status written yet and a
successful encoding, sets Content-Type to application/json, writes
status 200 when no explicit status is given and the explicit status when
one is given, and appends the encoded bytes as the body. -/
theorem WriteJSONResponse_success_defaults
    (w : Response) (b : String) (code : Int)
    (hw : w.status = none) :
    ((WriteJSONResponse w (Except.ok b) none).1.status = some 200 ∧
     (WriteJSONResponse w (Except.ok b) none).1.headerGet "Content-Type" =
       some "application/json" ∧
     (WriteJSONResponse w (Except.ok b) none).1.body = w.body ++ b) ∧
    ((WriteJSONResponse w (Except.ok b) (some code)).1.status = some code ∧
     (WriteJSONResponse w (Except.ok b) (some code)).1.headerGet "Content-Type" =
       some "application/json" ∧
     (WriteJSONResponse w (Except.ok b) (some code)).1.body = w.body ++ b) := by
  constructor <;>
    simp [WriteJSONResponse, Response.headerSet, Response.headerGet,
      Response.writeHeader, Response.write, List.lookup, hw]

/-- Concrete instance of the C7 theorem on a fresh sink. -/
theorem WriteJSONResponse_success_defaults_witness :
    emptyResponse.status = none ∧
    (WriteJSONResponse emptyResponse (Except.ok "[1,2]") none).1.status = some 200 ∧
    (WriteJSONResponse emptyResponse (Except.ok "[1,2]") none).1.headerGet "Content-Type" =
      some "application/json" ∧
    (WriteJSONResponse emptyResponse (Except.ok "[1,2]") none).1.body = "" ++ "[1,2]" ∧
    (WriteJSONResponse emptyResponse (Except.ok "[1,2]") (some 201)).1.status = some 201 :=
  ⟨rfl,
    (WriteJSONResponse_success_defaults emptyResponse "[1,2]" 201 rfl).1.1,
    (WriteJSONResponse_success_defaults emptyResponse "[1,2]" 201 rfl).1.2.1,
    (WriteJSONResponse_success_defaults emptyResponse "[1,2]" 201 rfl).1.2.2,
    (WriteJSONResponse_success_defaults emptyResponse "[1,2]" 201 rfl).2.1⟩

/-- C8: WriteJSONResponse fails exactly when the encoding fails: on an
encoding failure it returns the sink unchanged (no header, no status, no
body written) together with a 500 Error Model wrapping the codec error,
and on a successful encoding it returns no error; the outcome of the
final sink write is discarded by the source, so success of the write
never influences the returned error. -/
theorem WriteJSONResponse_error_iff_encode_fails
    (w : Response) (rc : Option Int) :
    (∀ msg : String,
       WriteJSONResponse w (Except.error msg) rc = (w, some (NewHTTPError 500 (some msg)))) ∧
    (∀ b : String, (WriteJSONResponse w (Except.ok b) rc).2 = none) := by
  exact ⟨fun msg => rfl, fun b => rfl⟩

/-- C9 counterexample: when validation reports the record invalid, the
cause message produced by ScanJSONBody is the capitalized source literal
"Schema validation error", not the lowercase text "schema validation
error" stated by the claim. -/
theorem schema_validation_message_cex :
    (ScanJSONBody (Except.ok ()) (Except.ok false)).map HTTPError.Err =
      some (some "Schema validation error") ∧
    ¬ (ScanJSONBody (Except.ok ()) (Except.ok false)).map HTTPError.Err =
      some (some "schema validation error") :=
  ⟨rfl, by decide⟩

/-- C9 amended: when the decoded record fails validation, ScanJSONBody
returns an Error Model with status 400 whose cause is the single generic
message "Schema validation error", with no itemization of fields. -/
theorem schema_validation_generic_message :
    ScanJSONBody (Except.ok ()) (Except.ok false) =
      some (NewHTTPError 400 (some "Schema validation error")) := rfl

/-- C10 counterexample: NewHTTPError validates nothing — applied to
status 0 and a nil cause it yields a value whose status is outside the
valid HTTP range and whose cause is nil, refuting the claim that every
constructed value satisfies the invariant. -/
theorem NewHTTPError_no_validation_cex :
    validHTTPStatus (NewHTTPError 0 none).ResponseCode = false ∧
    (NewHTTPError 0 none).Err.isSome = false :=
  ⟨by decide, rfl⟩

/-- C10 amended: NewHTTPError copies both arguments verbatim into the
two fields, so the constructed value satisfies the invariant exactly
when the caller supplies a valid status and a non-nil cause — as both
construction patterns used in this repository (status 400 or 500 with a
non-nil cause) do.  The value is a plain immutable record and a nil
pointer remains the only success signal. -/
theorem NewHTTPError_stores_arguments :
    (∀ (code : Int) (err : Option String),
       (NewHTTPError code err).ResponseCode = code ∧ (NewHTTPError code err).Err = err) ∧
    (∀ msg : String,
       (validHTTPStatus (NewHTTPError 400 (some msg)).ResponseCode = true ∧
        (NewHTTPError 400 (some msg)).Err.isSome = true) ∧
       (validHTTPStatus (NewHTTPError 500 (some msg)).ResponseCode = true ∧
        (NewHTTPError 500 (some msg)).Err.isSome = true)) :=
  ⟨fun _ _ => ⟨rfl, rfl⟩,
    fun _ => ⟨⟨rfl, rfl⟩, ⟨rfl, rfl⟩⟩⟩
